import Mathlib

/-
Shallow embedding of the scoped_static crate (mcmah309/scoped_static).

Source layout:
  src/scoped.rs      : ScopedGuard / Scoped        (shared Arc-count backend)
  src/scoped_pin.rs  : ScopedPinGuard / ScopedPin  (pinned AtomicUsize backend)
  src/lib.rs         : ScopeGuard / Scoped and UncheckedScopeGuard / UncheckedScoped
  src/utils.rs       : abort (failure reporter)

Counters are modelled as Nat.  The pinned backend uses AtomicUsize with
wrapping fetch_add / fetch_sub, modelled as arithmetic mod 2 ^ 64 (a
64-bit platform is assumed).  The shared backend uses Arc strong counts;
Arc terminates the process long before its count can overflow, so below
that bound plain Nat arithmetic is exact.
-/

set_option maxRecDepth 100000

/-- Number of values of usize on a 64-bit platform. -/
def usizeSize : Nat := 2 ^ 64

/-- Handle-level events that can happen between the creation and the
destruction of a guard: a lift from the guard, a duplication (Clone) of an
existing live handle, and a drop of a live handle. -/
inductive HEvent : Type
  | lift
  | clone
  | dropH
  deriving DecidableEq

/-- Effect of one event on the Arc strong count of the shared backend
(scoped.rs): `ScopedGuard::lift` clones the Arc (strong + 1, line 88), the
derived Clone of `Scoped` clones the inner Arc (strong + 1, line 135), and
dropping a `Scoped` releases its Arc (strong - 1). -/
def sharedStep (c : Nat) : HEvent → Nat
  | HEvent.lift => c + 1
  | HEvent.clone => c + 1
  | HEvent.dropH => c - 1

/-- Arc strong count after running the events starting from count `c`. -/
def sharedCountFrom : Nat → List HEvent → Nat
  | c, [] => c
  | c, e :: tr => sharedCountFrom (sharedStep c e) tr

/-- Arc strong count of a guard created by `ScopedGuard::new` (scoped.rs
76-83, a fresh Arc has strong count 1) after the given events. -/
def sharedCount (tr : List HEvent) : Nat := sharedCountFrom 1 tr

/-- Effect of one event on the explicit AtomicUsize counter of the pinned
backend (scoped_pin.rs): `lift` performs fetch_add 1 SeqCst (lines 96-103);
the derived Clone of `ScopedPin` (line 150) copies the value reference and
the raw counter pointer and performs NO counter operation; dropping a
`ScopedPin` performs fetch_sub 1 SeqCst (lines 167-174), which wraps on
underflow. -/
def pinStep (c : Nat) : HEvent → Nat
  | HEvent.lift => (c + 1) % usizeSize
  | HEvent.clone => c
  | HEvent.dropH => (c + (usizeSize - 1)) % usizeSize

/-- Pinned counter after running the events starting from value `c`. -/
def pinCountFrom : Nat → List HEvent → Nat
  | c, [] => c
  | c, e :: tr => pinCountFrom (pinStep c e) tr

/-- Counter of a pinned guard created by `ScopedPinGuard::new`
(scoped_pin.rs 83-92, the AtomicUsize starts at 0) after the given
events. -/
def pinCount (tr : List HEvent) : Nat := pinCountFrom 0 tr

/-- Number of live handles: lift and clone each create one handle, drop
destroys one. -/
def liveStep (l : Nat) : HEvent → Nat
  | HEvent.lift => l + 1
  | HEvent.clone => l + 1
  | HEvent.dropH => l - 1

/-- Live-handle count after running the events starting from `l` live
handles. -/
def liveFrom : Nat → List HEvent → Nat
  | l, [] => l
  | l, e :: tr => liveFrom (liveStep l e) tr

/-- Live-handle count after the given events, starting from none. -/
def liveAfter (tr : List HEvent) : Nat := liveFrom 0 tr

/-- Well-formed event sequences: a handle can only be cloned or dropped
while at least one handle is live (Rust ownership makes any other sequence
impossible to write). -/
def wfFrom : Nat → List HEvent → Bool
  | _, [] => true
  | l, HEvent.lift :: tr => wfFrom (l + 1) tr
  | l, HEvent.clone :: tr => decide (0 < l) && wfFrom (l + 1) tr
  | l, HEvent.dropH :: tr => decide (0 < l) && wfFrom (l - 1) tr

/-- Well-formedness for a trace that starts right after guard creation. -/
def wfTrace (tr : List HEvent) : Bool := wfFrom 0 tr

/-- Number of lift events in a trace. -/
def nLift : List HEvent → Nat
  | [] => 0
  | HEvent.lift :: tr => nLift tr + 1
  | _ :: tr => nLift tr

/-- Number of clone events in a trace. -/
def nClone : List HEvent → Nat
  | [] => 0
  | HEvent.clone :: tr => nClone tr + 1
  | _ :: tr => nClone tr

/-- Number of handle-drop events in a trace. -/
def nDrop : List HEvent → Nat
  | [] => 0
  | HEvent.dropH :: tr => nDrop tr + 1
  | _ :: tr => nDrop tr

/-- Guard-drop check of the shared backend (scoped.rs 100-131): the failure
branch is taken iff the inspected strong count is not 1. -/
def sharedGuardDropFails (c : Nat) : Bool := c != 1

/-- Guard-drop check of the pinned backend (scoped_pin.rs 114-146): the
failure branch is taken iff the SeqCst load of the counter is nonzero. -/
def pinGuardDropFails (c : Nat) : Bool := c != 0

/-- State of the Arc cell behind `ScopedGuard` / `ScopeGuard`: the captured
reference (modelled by the referent value) plus the strong count. -/
structure SharedCell (α : Type) where
  value : α
  strong : Nat

/-- Handle of the shared backend (`Scoped`, scoped.rs 135-144): wraps a
clone of the Arc; modelled by the value it reads. -/
structure ScopedH (α : Type) where
  value : α

/-- `ScopedGuard::new` (scoped.rs 76-83): transmutes the reference to a
static lifetime (invisible to the value model) and stores it in a fresh
Arc, whose strong count is 1. -/
def scopedGuardNew {α : Type} (v : α) : SharedCell α := { value := v, strong := 1 }

/-- `ScopedGuard::lift` (scoped.rs 87-89): clones the Arc (strong + 1) and
returns a `Scoped` wrapping it; the handle reads the same cell. -/
def scopedGuardLift {α : Type} (c : SharedCell α) : SharedCell α × ScopedH α :=
  ({ c with strong := c.strong + 1 }, { value := c.value })

/-- Deref of `ScopedGuard` (scoped.rs 92-98): reads through the Arc. -/
def scopedGuardDeref {α : Type} (c : SharedCell α) : α := c.value

/-- Deref of `Scoped` (scoped.rs 138-144): reads through its Arc clone. -/
def scopedHandleDeref {α : Type} (h : ScopedH α) : α := h.value

/-- Derived Clone of `Scoped` (scoped.rs 135): clones the inner Arc, so the
new handle reads the same cell; the strong-count effect is tracked by
`sharedStep HEvent.clone`. -/
def scopedHandleClone {α : Type} (h : ScopedH α) : ScopedH α := { value := h.value }

/-- Dropping a `Scoped`: it has no Drop impl of its own (scoped.rs
133-144); dropping it only releases its Arc clone (strong - 1). -/
def scopedHandleDrop {α : Type} (c : SharedCell α) : SharedCell α :=
  { c with strong := c.strong - 1 }

/-- Dropping a `Scoped` performs no violation check: the failure branch
exists only in the guard Drop impl (scoped.rs 100-131), so a handle drop
can never take it. -/
def scopedHandleDropFails {α : Type} (_ : SharedCell α) : Bool := false

/-- Drop check of `ScopedGuard` (scoped.rs 100-131) on the cell state. -/
def scopedGuardDropCheck {α : Type} (c : SharedCell α) : Bool := c.strong != 1

/-- State of `ScopedPinGuard` (scoped_pin.rs 74-79): the captured reference
and the explicit AtomicUsize counter. -/
structure ScopedPinGuardSt (α : Type) where
  value : α
  counter : Nat

/-- `ScopedPin` (scoped_pin.rs 151-154): a static value reference plus a
raw pointer to the counter of the guard it came from; the pointer target is
modelled by the trace semantics (`pinStep`), the value by this
structure. -/
structure ScopedPinSt (α : Type) where
  value : α

/-- `ScopedPinGuard::new` (scoped_pin.rs 83-92): captures the value and
initializes the counter to 0. -/
def scopedPinGuardNew {α : Type} (v : α) : ScopedPinGuardSt α := { value := v, counter := 0 }

/-- `ScopedPinGuard::lift` (scoped_pin.rs 96-103): fetch_add 1 SeqCst on
the counter and return a handle holding the value address and the counter
pointer. -/
def scopedPinGuardLift {α : Type} (g : ScopedPinGuardSt α) : ScopedPinGuardSt α × ScopedPinSt α :=
  ({ g with counter := (g.counter + 1) % usizeSize }, { value := g.value })

/-- Deref of `ScopedPinGuard` (scoped_pin.rs 106-112). -/
def scopedPinGuardDeref {α : Type} (g : ScopedPinGuardSt α) : α := g.value

/-- Deref of `ScopedPin` (scoped_pin.rs 159-165). -/
def scopedPinDeref {α : Type} (h : ScopedPinSt α) : α := h.value

/-- Derived Clone of `ScopedPin` (scoped_pin.rs 150): copies the value
reference and the raw counter pointer field by field; it performs no
operation on the counter itself. -/
def scopedPinClone {α : Type} (h : ScopedPinSt α) : ScopedPinSt α := { value := h.value }

/-- Drop of `ScopedPin` (scoped_pin.rs 167-174): fetch_sub 1 SeqCst on the
counter pointed to, wrapping on underflow. -/
def scopedPinDropCounter (c : Nat) : Nat := (c + (usizeSize - 1)) % usizeSize

/-- Drop check of `ScopedPinGuard` (scoped_pin.rs 114-146) on the guard
state: loads the counter; the failure branch is taken iff it is nonzero. -/
def scopedPinGuardDropCheck {α : Type} (g : ScopedPinGuardSt α) : Bool := g.counter != 0

/-- `ScopeGuard::new` (lib.rs 42-49): safe constructor, otherwise identical
to `ScopedGuard::new`: a fresh Arc with strong count 1. -/
def scopeGuardNew {α : Type} (v : α) : SharedCell α := { value := v, strong := 1 }

/-- `ScopeGuard::lift` (lib.rs 53-55): clones the Arc and wraps it. -/
def scopeGuardLift {α : Type} (c : SharedCell α) : SharedCell α × ScopedH α :=
  ({ c with strong := c.strong + 1 }, { value := c.value })

/-- Deref of `ScopeGuard` (lib.rs 58-64). -/
def scopeGuardDeref {α : Type} (c : SharedCell α) : α := c.value

/-- Drop check of `ScopeGuard` (lib.rs 66-96): failure branch iff the
strong count is not 1. -/
def scopeGuardDropCheck {α : Type} (c : SharedCell α) : Bool := c.strong != 1

/-- `UncheckedScopeGuard` with bookkeeping enabled (lib.rs, cfg any of
feature `checked` / debug_assertions): the data field is an Arc (283-284),
`new` wraps the reference in a fresh Arc (291-299). -/
def uncheckedCheckedNew {α : Type} (v : α) : SharedCell α := { value := v, strong := 1 }

/-- `UncheckedScopeGuard::lift` with bookkeeping enabled (lib.rs 303-305):
clones the Arc. -/
def uncheckedCheckedLift {α : Type} (c : SharedCell α) : SharedCell α × ScopedH α :=
  ({ c with strong := c.strong + 1 }, { value := c.value })

/-- Deref of `UncheckedScopeGuard` with bookkeeping enabled (lib.rs
311-318). -/
def uncheckedCheckedDeref {α : Type} (c : SharedCell α) : α := c.value

/-- Drop check of `UncheckedScopeGuard` with bookkeeping enabled (lib.rs
331-360): failure branch iff the strong count is not 1. -/
def uncheckedCheckedDropCheck {α : Type} (c : SharedCell α) : Bool := c.strong != 1

/-- `UncheckedScopeGuard` with bookkeeping compiled out (lib.rs 285-286,
release without the `checked` feature): the data field is a bare static
reference, no Arc. -/
structure UncheckedScopeGuardRel (α : Type) where
  data : α

/-- `UncheckedScoped` with bookkeeping compiled out (lib.rs 373-375). -/
structure UncheckedScopedRel (α : Type) where
  data : α

/-- `UncheckedScopeGuard::new` with bookkeeping compiled out (lib.rs
291-299, the Arc wrapping is cfg-gated away). -/
def uncheckedRelNew {α : Type} (v : α) : UncheckedScopeGuardRel α := { data := v }

/-- `UncheckedScopeGuard::lift` with bookkeeping compiled out (lib.rs
306-307): returns the bare reference, a plain pointer copy, no count. -/
def uncheckedRelLift {α : Type} (g : UncheckedScopeGuardRel α) : UncheckedScopedRel α :=
  { data := g.data }

/-- Deref of `UncheckedScoped` with bookkeeping compiled out (lib.rs
386-393). -/
def uncheckedRelDeref {α : Type} (h : UncheckedScopedRel α) : α := h.data

/-- Drop of `UncheckedScopeGuard` with bookkeeping compiled out (lib.rs
329-362): the entire body is cfg-gated away, so the destructor does nothing
whatever the number of live handles; the failure branch cannot be
reached. -/
def uncheckedRelDropFails (_liveHandles : Nat) : Bool := false

/-- Status of backtrace capture (the standard BacktraceStatus); `other`
stands for the non-exhaustive remainder matched by the wildcard arm in
utils.rs. -/
inductive BacktraceStatus : Type
  | unsupported
  | disabled
  | captured
  | other

/-- Fixed diagnostic message ROOT_MSG of utils.rs 2-3 (also inlined in both
Drop impls; the Rust line continuation folds it into one line). -/
def rootMsg : String :=
  "Fatal error: Scope dropped while Lifted references still exist. This would cause undefined behavior. Aborting.\n"

/-- Outcome of the failure reporter: either the whole process is terminated
after writing `written` to stderr (with `flushed` recording that the stream
flush was invoked), or, in test-harness mode, a panic is raised on the
current thread only, carrying `msg`. -/
inductive AbortOutcome : Type
  | processAbort (written : String) (flushed : Bool)
  | panicOnThread (msg : String)

/-- Message built by `abort` (utils.rs 8-18) from the backtrace status and
the rendered backtrace text. -/
def abortMsg : BacktraceStatus → String → String
  | BacktraceStatus.unsupported, _ => rootMsg
  | BacktraceStatus.disabled, _ =>
      rootMsg ++ "\n(Hint: re-run with `RUST_BACKTRACE=1` to see a backtrace.)\n"
  | BacktraceStatus.captured, bt => rootMsg ++ ("\nBacktrace:\n" ++ bt ++ "\n")
  | BacktraceStatus.other, _ => rootMsg

/-- `abort` (utils.rs 1-28): with the `test` feature off it writes the
message to stderr, flushes, and terminates the process (return type is
never, so this path does not return); with the `test` feature on it panics
on the current thread with ROOT_MSG instead. -/
def abort (testMode : Bool) (st : BacktraceStatus) (bt : String) : AbortOutcome :=
  if testMode then AbortOutcome.panicOnThread rootMsg
  else AbortOutcome.processAbort (abortMsg st bt) true

-- Helper lemmas about the trace semantics.

theorem liveFrom_accounting (tr : List HEvent) :
    ∀ l : Nat, wfFrom l tr = true →
      liveFrom l tr + nDrop tr = l + nLift tr + nClone tr := by
  induction tr with
  | nil => intro l _; simp [liveFrom, nDrop, nLift, nClone]
  | cons e tr ih =>
    intro l hwf
    cases e with
    | lift =>
        have h1 : wfFrom (l + 1) tr = true := by simpa [wfFrom] using hwf
        have h2 := ih (l + 1) h1
        simp only [liveFrom, liveStep, nDrop, nLift, nClone]
        omega
    | clone =>
        simp only [wfFrom, Bool.and_eq_true, decide_eq_true_eq] at hwf
        obtain ⟨hl, h1⟩ := hwf
        have h2 := ih (l + 1) h1
        simp only [liveFrom, liveStep, nDrop, nLift, nClone]
        omega
    | dropH =>
        simp only [wfFrom, Bool.and_eq_true, decide_eq_true_eq] at hwf
        obtain ⟨hl, h1⟩ := hwf
        have h2 := ih (l - 1) h1
        simp only [liveFrom, liveStep, nDrop, nLift, nClone]
        omega

theorem sharedCountFrom_eq (tr : List HEvent) :
    ∀ l : Nat, wfFrom l tr = true →
      sharedCountFrom (l + 1) tr = liveFrom l tr + 1 := by
  induction tr with
  | nil => intro l _; simp [sharedCountFrom, liveFrom]
  | cons e tr ih =>
    intro l hwf
    cases e with
    | lift =>
        have h1 : wfFrom (l + 1) tr = true := by simpa [wfFrom] using hwf
        have h2 := ih (l + 1) h1
        simpa [sharedCountFrom, sharedStep, liveFrom, liveStep] using h2
    | clone =>
        simp only [wfFrom, Bool.and_eq_true, decide_eq_true_eq] at hwf
        obtain ⟨hl, h1⟩ := hwf
        have h2 := ih (l + 1) h1
        simpa [sharedCountFrom, sharedStep, liveFrom, liveStep] using h2
    | dropH =>
        simp only [wfFrom, Bool.and_eq_true, decide_eq_true_eq] at hwf
        obtain ⟨hl, h1⟩ := hwf
        have h2 := ih (l - 1) h1
        rw [Nat.sub_add_cancel hl] at h2
        simpa [sharedCountFrom, sharedStep, liveFrom, liveStep] using h2

theorem pinCountFrom_eq (tr : List HEvent) :
    ∀ l : Nat, wfFrom l tr = true → nClone tr = 0 →
      l + nLift tr < usizeSize →
      pinCountFrom l tr = liveFrom l tr := by
  induction tr with
  | nil => intro l _ _ _; simp [pinCountFrom, liveFrom]
  | cons e tr ih =>
    intro l hwf hnc hlt
    cases e with
    | lift =>
        have h1 : wfFrom (l + 1) tr = true := by simpa [wfFrom] using hwf
        have hnc1 : nClone tr = 0 := by simpa [nClone] using hnc
        have hlt0 : l + (nLift tr + 1) < usizeSize := by simpa [nLift] using hlt
        have hlt1 : (l + 1) + nLift tr < usizeSize := by omega
        have hstep : pinStep l HEvent.lift = l + 1 := by
          simp only [pinStep]
          exact Nat.mod_eq_of_lt (by omega)
        have h2 := ih (l + 1) h1 hnc1 hlt1
        simp only [pinCountFrom, liveFrom, liveStep, hstep]
        exact h2
    | clone =>
        simp [nClone] at hnc
    | dropH =>
        simp only [wfFrom, Bool.and_eq_true, decide_eq_true_eq] at hwf
        obtain ⟨hl, h1⟩ := hwf
        have hnc1 : nClone tr = 0 := by simpa [nClone] using hnc
        have hlt0 : l + nLift tr < usizeSize := by simpa [nLift] using hlt
        have hlt1 : (l - 1) + nLift tr < usizeSize := by omega
        have hU : 0 < usizeSize := by decide
        have hstep : pinStep l HEvent.dropH = l - 1 := by
          simp only [pinStep]
          have h3 : l + (usizeSize - 1) = (l - 1) + usizeSize := by omega
          rw [h3, Nat.add_mod_right]
          exact Nat.mod_eq_of_lt (by omega)
        have h2 := ih (l - 1) h1 hnc1 hlt1
        simp only [pinCountFrom, liveFrom, liveStep, hstep]
        exact h2

/-- Claim C1, failing execution: in the pinned backend, lift a handle,
clone it, then drop only the original: one handle is still live, but the
guard destructor loads a counter of 0 and does not take the failure branch,
because the derived Clone never incremented the counter. -/
theorem claim_C1_pinned_clone_misses_detection :
    wfTrace [HEvent.lift, HEvent.clone, HEvent.dropH] = true ∧
    liveAfter [HEvent.lift, HEvent.clone, HEvent.dropH] = 1 ∧
    pinCount [HEvent.lift, HEvent.clone, HEvent.dropH] = 0 ∧
    pinGuardDropFails (pinCount [HEvent.lift, HEvent.clone, HEvent.dropH]) = false := by
  decide

/-- Claim C2: if every handle lifted from a guard is destroyed strictly
before the guard is, the guard destructor completes without the failure
path, for any number of handles: the shared backend inspects a strong count
of exactly 1 and the pinned backend loads a counter of 0. -/
theorem claim_C2_all_handles_dropped_before_guard
    (tr : List HEvent)
    (hwf : wfTrace tr = true)
    (hnc : nClone tr = 0)
    (hlt : nLift tr < usizeSize)
    (hlive : liveAfter tr = 0) :
    sharedCount tr = 1 ∧ sharedGuardDropFails (sharedCount tr) = false ∧
    pinCount tr = 0 ∧ pinGuardDropFails (pinCount tr) = false := by
  have hs : sharedCount tr = liveAfter tr + 1 := sharedCountFrom_eq tr 0 hwf
  have hp : pinCount tr = liveAfter tr := pinCountFrom_eq tr 0 hwf hnc (by omega)
  rw [hlive] at hs hp
  refine ⟨hs, ?_, hp, ?_⟩
  · rw [hs]; rfl
  · rw [hp]; rfl

/-- Witness for claim C2 at the concrete trace lift, lift, drop, drop. -/
theorem claim_C2_witness :
    wfTrace [HEvent.lift, HEvent.lift, HEvent.dropH, HEvent.dropH] = true ∧
    nClone [HEvent.lift, HEvent.lift, HEvent.dropH, HEvent.dropH] = 0 ∧
    nLift [HEvent.lift, HEvent.lift, HEvent.dropH, HEvent.dropH] < usizeSize ∧
    liveAfter [HEvent.lift, HEvent.lift, HEvent.dropH, HEvent.dropH] = 0 ∧
    (sharedCount [HEvent.lift, HEvent.lift, HEvent.dropH, HEvent.dropH] = 1 ∧
     sharedGuardDropFails (sharedCount [HEvent.lift, HEvent.lift, HEvent.dropH, HEvent.dropH]) = false ∧
     pinCount [HEvent.lift, HEvent.lift, HEvent.dropH, HEvent.dropH] = 0 ∧
     pinGuardDropFails (pinCount [HEvent.lift, HEvent.lift, HEvent.dropH, HEvent.dropH]) = false) :=
  ⟨by decide, by decide, by decide, by decide,
   claim_C2_all_handles_dropped_before_guard
     [HEvent.lift, HEvent.lift, HEvent.dropH, HEvent.dropH]
     (by decide) (by decide) (by decide) (by decide)⟩

/-- Claim C3, failing execution: cloning a pinned handle leaves the counter
unchanged (lift then clone gives two live handles but counter 1), and after
dropping both handles the counter wraps around below zero, so a guard drop
with no live handles takes the failure branch. -/
theorem claim_C3_pinned_clone_does_not_increment :
    pinCount [HEvent.lift] = 1 ∧
    pinCount [HEvent.lift, HEvent.clone] = 1 ∧
    liveAfter [HEvent.lift, HEvent.clone] = 2 ∧
    pinCount [HEvent.lift, HEvent.clone, HEvent.dropH, HEvent.dropH] = usizeSize - 1 ∧
    liveAfter [HEvent.lift, HEvent.clone, HEvent.dropH, HEvent.dropH] = 0 ∧
    pinGuardDropFails (pinCount [HEvent.lift, HEvent.clone, HEvent.dropH, HEvent.dropH]) = true := by
  decide

/-- Claim C4: pinned-backend bookkeeping for handles derived by lift: the
counter starts at 0, each lift adds exactly one and each handle drop
subtracts exactly one, so after any well-formed sequence of lifts and drops
the counter plus the number of drops equals the number of lifts; in
particular destroying a subset of the handles lowers the counter by exactly
the size of that subset, and once the drops match the lifts the counter is
0. -/
theorem claim_C4_pinned_count_bookkeeping
    (tr : List HEvent)
    (hwf : wfTrace tr = true)
    (hnc : nClone tr = 0)
    (hlt : nLift tr < usizeSize) :
    pinCount [] = 0 ∧
    pinCount tr + nDrop tr = nLift tr ∧
    pinCount tr = nLift tr - nDrop tr := by
  have hp : pinCount tr = liveAfter tr := pinCountFrom_eq tr 0 hwf hnc (by omega)
  have ha := liveFrom_accounting tr 0 hwf
  have ha2 : liveAfter tr + nDrop tr = nLift tr := by
    simp only [liveAfter]
    omega
  refine ⟨rfl, by omega, by omega⟩

/-- Witness for claim C4 at the concrete trace lift, lift, drop. -/
theorem claim_C4_witness :
    wfTrace [HEvent.lift, HEvent.lift, HEvent.dropH] = true ∧
    nClone [HEvent.lift, HEvent.lift, HEvent.dropH] = 0 ∧
    nLift [HEvent.lift, HEvent.lift, HEvent.dropH] < usizeSize ∧
    (pinCount [] = 0 ∧
     pinCount [HEvent.lift, HEvent.lift, HEvent.dropH] +
       nDrop [HEvent.lift, HEvent.lift, HEvent.dropH] =
       nLift [HEvent.lift, HEvent.lift, HEvent.dropH] ∧
     pinCount [HEvent.lift, HEvent.lift, HEvent.dropH] =
       nLift [HEvent.lift, HEvent.lift, HEvent.dropH] -
       nDrop [HEvent.lift, HEvent.lift, HEvent.dropH]) :=
  ⟨by decide, by decide, by decide,
   claim_C4_pinned_count_bookkeeping
     [HEvent.lift, HEvent.lift, HEvent.dropH]
     (by decide) (by decide) (by decide)⟩

/-- Claim C5: shared backend: new stores the captured reference in a cell
whose strong count is exactly 1; lift raises the count by exactly one and
the returned handle reads the same cell; a handle drop lowers the count by
one and contains no violation check (only the guard destructor checks). -/
theorem claim_C5_shared_backend_ops {α : Type} (v : α) (c : SharedCell α) :
    (scopedGuardNew v).strong = 1 ∧
    (scopedGuardNew v).value = v ∧
    (scopedGuardLift c).1.strong = c.strong + 1 ∧
    (scopedGuardLift c).1.value = c.value ∧
    (scopedGuardLift c).2.value = c.value ∧
    (scopedHandleDrop c).strong = c.strong - 1 ∧
    (scopedHandleDrop c).value = c.value ∧
    scopedHandleDropFails c = false :=
  ⟨rfl, rfl, rfl, rfl, rfl, rfl, rfl, rfl⟩

/-- Claim C6: reads through the guard and through every live handle of
either backend return the captured value, and distinct handles of the same
guard agree. -/
theorem claim_C6_value_fidelity {α : Type} (v : α) (c : SharedCell α)
    (g : ScopedPinGuardSt α) (h : ScopedH α) (hp : ScopedPinSt α) :
    scopedGuardDeref (scopedGuardNew v) = v ∧
    scopedHandleDeref (scopedGuardLift c).2 = scopedGuardDeref c ∧
    scopedHandleDeref (scopedHandleClone h) = scopedHandleDeref h ∧
    scopedHandleDeref (scopedGuardLift (scopedGuardLift c).1).2 =
      scopedHandleDeref (scopedGuardLift c).2 ∧
    scopedPinGuardDeref (scopedPinGuardNew v) = v ∧
    scopedPinDeref (scopedPinGuardLift g).2 = scopedPinGuardDeref g ∧
    scopedPinDeref (scopedPinClone hp) = scopedPinDeref hp ∧
    scopedPinDeref (scopedPinGuardLift (scopedPinGuardLift g).1).2 =
      scopedPinDeref (scopedPinGuardLift g).2 :=
  ⟨rfl, rfl, rfl, rfl, rfl, rfl, rfl, rfl⟩

/-- Claim C7: with bookkeeping compiled out, lift is a plain pointer copy
and the guard destructor does nothing, so dropping the guard with any
number of live handles, one or more included, never triggers the failure
path. -/
theorem claim_C7_unchecked_release_no_detection {α : Type} (v : α)
    (g : UncheckedScopeGuardRel α) (n : Nat) :
    (uncheckedRelNew v).data = v ∧
    uncheckedRelLift g = { data := g.data } ∧
    uncheckedRelDeref (uncheckedRelLift g) = g.data ∧
    uncheckedRelDropFails n = false ∧
    uncheckedRelDropFails (n + 1) = false :=
  ⟨rfl, rfl, rfl, rfl, rfl⟩

/-- Claim C8: the failure reporter in production mode writes a message that
begins with the fixed diagnostic, flushes stderr, and terminates the whole
process (this path yields no return value); in test-harness mode it instead
panics on the current thread with the fixed diagnostic, which a test can
catch. -/
theorem claim_C8_failure_reporter (st : BacktraceStatus) (bt : String) :
    abort false st bt = AbortOutcome.processAbort (abortMsg st bt) true ∧
    (∃ rest : String, abortMsg st bt = rootMsg ++ rest) ∧
    abort true st bt = AbortOutcome.panicOnThread rootMsg := by
  refine ⟨rfl, ?_, rfl⟩
  cases st with
  | unsupported => exact ⟨"", by simp [abortMsg]⟩
  | disabled =>
      exact ⟨"\n(Hint: re-run with `RUST_BACKTRACE=1` to see a backtrace.)\n", rfl⟩
  | captured => exact ⟨"\nBacktrace:\n" ++ bt ++ "\n", rfl⟩
  | other => exact ⟨"", by simp [abortMsg]⟩

/-- Claim C9: every public operation is a total function of the
instantaneous state consisting of exactly one counter update or one load
plus one comparison; the guard-drop verdict depends only on the counter
value it loads (never on the set of outstanding handles), so guard
destruction decides at a single point in time instead of waiting. -/
theorem claim_C9_operations_nonblocking {α : Type}
    (g1 g2 : ScopedPinGuardSt α) (c1 c2 : SharedCell α)
    (hpc : g1.counter = g2.counter) (hsc : c1.strong = c2.strong) :
    scopedPinGuardDropCheck g1 = scopedPinGuardDropCheck g2 ∧
    scopedGuardDropCheck c1 = scopedGuardDropCheck c2 ∧
    (scopedPinGuardLift g1).1.counter = pinStep g1.counter HEvent.lift ∧
    scopedPinDropCounter g1.counter = pinStep g1.counter HEvent.dropH ∧
    (scopedGuardLift c1).1.strong = sharedStep c1.strong HEvent.lift ∧
    scopedHandleDrop c1 = { c1 with strong := sharedStep c1.strong HEvent.dropH } := by
  refine ⟨?_, ?_, rfl, rfl, rfl, rfl⟩
  · simp [scopedPinGuardDropCheck, hpc]
  · simp [scopedGuardDropCheck, hsc]

/-- Witness for claim C9 at concrete states with equal counters. -/
theorem claim_C9_witness :
    (ScopedPinGuardSt.mk (0 : Nat) 5).counter = (ScopedPinGuardSt.mk (1 : Nat) 5).counter ∧
    (SharedCell.mk (2 : Nat) 3).strong = (SharedCell.mk (4 : Nat) 3).strong ∧
    (scopedPinGuardDropCheck (ScopedPinGuardSt.mk (0 : Nat) 5) =
       scopedPinGuardDropCheck (ScopedPinGuardSt.mk (1 : Nat) 5) ∧
     scopedGuardDropCheck (SharedCell.mk (2 : Nat) 3) =
       scopedGuardDropCheck (SharedCell.mk (4 : Nat) 3) ∧
     (scopedPinGuardLift (ScopedPinGuardSt.mk (0 : Nat) 5)).1.counter =
       pinStep (ScopedPinGuardSt.mk (0 : Nat) 5).counter HEvent.lift ∧
     scopedPinDropCounter (ScopedPinGuardSt.mk (0 : Nat) 5).counter =
       pinStep (ScopedPinGuardSt.mk (0 : Nat) 5).counter HEvent.dropH ∧
     (scopedGuardLift (SharedCell.mk (2 : Nat) 3)).1.strong =
       sharedStep (SharedCell.mk (2 : Nat) 3).strong HEvent.lift ∧
     scopedHandleDrop (SharedCell.mk (2 : Nat) 3) =
       { SharedCell.mk (2 : Nat) 3 with
           strong := sharedStep (SharedCell.mk (2 : Nat) 3).strong HEvent.dropH }) :=
  ⟨rfl, rfl,
   claim_C9_operations_nonblocking
     (ScopedPinGuardSt.mk (0 : Nat) 5) (ScopedPinGuardSt.mk (1 : Nat) 5)
     (SharedCell.mk (2 : Nat) 3) (SharedCell.mk (4 : Nat) 3) rfl rfl⟩

/-- Claim C10: with bookkeeping enabled, `UncheckedScopeGuard` behaves
exactly like `ScopeGuard`: same construction, same lift bookkeeping, same
deref, and the failure branch under exactly the same strong-count
condition. -/
theorem claim_C10_unchecked_checked_matches_scope_guard {α : Type} (v : α) (c : SharedCell α) :
    uncheckedCheckedNew v = scopeGuardNew v ∧
    uncheckedCheckedLift c = scopeGuardLift c ∧
    uncheckedCheckedDeref c = scopeGuardDeref c ∧
    uncheckedCheckedDropCheck c = scopeGuardDropCheck c :=
  ⟨rfl, rfl, rfl, rfl⟩
